import Mathlib

/-!
Verification of the chat backend in `src/main.py`.

The program keeps four PostgreSQL tables (`messages`, `users`, `friends`,
`private_messages`) and serves a PyWebIO session per client.  We embed the
tables as Lean lists held in insertion order (a `SERIAL` id is modelled by a
per-table sequence counter that never resets, and `created_at` timestamps are
integers; `NOW()` becomes an explicit `now` argument).  Each SQL statement of
the source becomes a pure function on this state.

Store invariant used by ordering theorems: rows are appended at `NOW()`, so the
insertion-ordered list is non-decreasing in `created_at`; under that invariant
a plain `filter` of the list realises `ORDER BY created_at ASC`.
-/

/-- Row of the `messages` table (src/main.py:20-26): public chat log. -/
structure PubMsg where
  id : Nat
  username : String
  text : String
  created_at : Int
deriving DecidableEq

/-- Row of the `users` table (src/main.py:27-34).  The bcrypt hash is kept as
an abstract string: `hash_password` is an external primitive whose output the
claims never inspect. -/
structure User where
  id : Nat
  email : String
  password_hash : String
  display_name : String
deriving DecidableEq

/-- Row of the `private_messages` table (src/main.py:43-52). -/
structure PrivMsg where
  id : Nat
  sender_id : Nat
  receiver_id : Nat
  text : String
  created_at : Int
deriving DecidableEq

/-- Database state: the four tables plus the `SERIAL` sequences.  A `friends`
row (src/main.py:35-42) is the pair `(user_id, friend_id)`. -/
structure DB where
  messages : List PubMsg
  users : List User
  friends : List (Nat × Nat)
  private_messages : List PrivMsg
  msg_seq : Nat
  user_seq : Nat
  pm_seq : Nat
deriving DecidableEq

/-- Empty database, as produced by `init_db` on a fresh server. -/
def DB.empty : DB := ⟨[], [], [], [], 1, 1, 1⟩

/-- Retention interval of the public and private history queries:
`INTERVAL '24 hours'` (src/main.py:96 and 193), in hours. -/
def retention_window : Int := 24

/-- Condition `created_at >= NOW() - INTERVAL '24 hours'` as a Boolean. -/
def in_window (now t : Int) : Bool := decide (now - retention_window ≤ t)

/-- System announcement identity used by the source for join/leave/clear
notices (the loudspeaker emoji literal at src/main.py:314, 327, 377, 408). -/
def sentinel : String := "📢"

/-- save_message (src/main.py:105-111): unconditional
`INSERT INTO messages (username, text)`; `id` comes from the table's sequence
and `created_at` defaults to `NOW()`. -/
def save_message (db : DB) (user text : String) (now : Int) : DB :=
  { db with messages := db.messages ++ [⟨db.msg_seq, user, text, now⟩],
            msg_seq := db.msg_seq + 1 }

/-- Send path of the main input loop (src/main.py:382-404): the `input_group`
validator rejects an empty message body for the send action (line 391), so
`save_message` (line 404) only runs on a non-empty body.  `none` models the
validation error: nothing is stored. -/
def on_send (db : DB) (display_name msg : String) (now : Int) : Option DB :=
  if msg = "" then none else some (save_message db display_name msg now)

/-- load_messages (src/main.py:91-103) before the column projection:
`SELECT ... WHERE created_at >= NOW() - INTERVAL '24 hours'
ORDER BY created_at ASC LIMIT 100`.  The store list is insertion-ordered and
non-decreasing in `created_at`, so the filtered list is already in the order
of the `ORDER BY`; `LIMIT 100` then keeps the first hundred of it. -/
def load_messages_rows (db : DB) (now : Int) : List PubMsg :=
  (db.messages.filter (fun m => in_window now m.created_at)).take 100

/-- load_messages' returned `(username, text)` pairs (src/main.py:103). -/
def load_messages (db : DB) (now : Int) : List (String × String) :=
  (load_messages_rows db now).map (fun m => (m.username, m.text))

/-- clear_chat (src/main.py:113-119): `DELETE FROM messages`. -/
def clear_chat (db : DB) : DB := { db with messages := [] }

/-- Text of the announcement posted after a confirmed clear
(src/main.py:327). -/
def clear_notice : String := "Чат был полностью очищен."

/-- confirm_and_clear, confirmed path (src/main.py:318-328): wipe the public
log, then post the sentinel announcement through `save_message`. -/
def confirm_and_clear (db : DB) (now : Int) : DB :=
  save_message (clear_chat db) sentinel clear_notice now

/-- register_user (src/main.py:63-78): `INSERT INTO users`; the only
constraint is `UNIQUE` on `email`, so a duplicate email raises
`IntegrityError`, is rolled back and reported as `false`.  The display name
is not checked against anything. -/
def register_user (db : DB) (email password_hash display_name : String) :
    Bool × DB :=
  if db.users.any (fun u => decide (u.email = email)) then (false, db)
  else (true,
    { db with users := db.users ++ [⟨db.user_seq, email, password_hash, display_name⟩],
              user_seq := db.user_seq + 1 })

/-- Join step of `main` (src/main.py:366-367): after authentication the
display name is added to the global `online_users` set unconditionally — no
uniqueness test, no sentinel test, no failure result. -/
def join_chat (online : List String) (name : String) : List String :=
  if name ∈ online then online else online ++ [name]

/-- add_friend (src/main.py:122-139): a self-request returns `false` before
touching the database; otherwise the `INSERT INTO friends` succeeds unless
`IntegrityError` fires — duplicate primary key `(user_id, friend_id)` or a
foreign key to a missing user — in which case the transaction is rolled back
and `false` is returned with the state unchanged. -/
def add_friend (db : DB) (user_id friend_id : Nat) : Bool × DB :=
  if user_id = friend_id then (false, db)
  else if (user_id, friend_id) ∈ db.friends
      ∨ ¬ db.users.any (fun u => decide (u.id = user_id)) = true
      ∨ ¬ db.users.any (fun u => decide (u.id = friend_id)) = true then
    (false, db)
  else (true, { db with friends := db.friends ++ [(user_id, friend_id)] })

/-- get_friends (src/main.py:141-153): `SELECT u.display_name, u.id FROM
friends f JOIN users u ON f.friend_id = u.id WHERE f.user_id = %s` — only the
outgoing direction `(user_id, _)` is consulted.  The join is a lookup of the
friend row's `friend_id` among the users. -/
def get_friends (db : DB) (user_id : Nat) : List (String × Nat) :=
  (db.friends.filter (fun fr => decide (fr.1 = user_id))).filterMap
    (fun fr => (db.users.find? (fun u => decide (u.id = fr.2))).map
      (fun u => (u.display_name, u.id)))

/-- WHERE clause of load_private_messages (src/main.py:183-195).  In SQL,
`AND` binds tighter than `OR`, so the written condition
`(sender=u AND receiver=f) OR (sender=f AND receiver=u) AND recent`
parses with the 24-hour recency test attached only to the second disjunct:
rows the viewer sent are returned at any age. -/
def load_private_messages_rows (db : DB) (user_id friend_id : Nat) (now : Int) :
    List PrivMsg :=
  db.private_messages.filter (fun pm =>
    (decide (pm.sender_id = user_id) && decide (pm.receiver_id = friend_id))
    || (decide (pm.sender_id = friend_id) && decide (pm.receiver_id = user_id)
        && in_window now pm.created_at))

/-- load_private_messages (src/main.py:180-199): the WHERE clause above, with
the `JOIN users u ON u.id = pm.sender_id` projection to
`(text, sender_name, is_own)`. -/
def load_private_messages (db : DB) (user_id friend_id : Nat) (now : Int) :
    List (String × String × Bool) :=
  (load_private_messages_rows db user_id friend_id now).filterMap
    (fun pm => (db.users.find? (fun u => decide (u.id = pm.sender_id))).map
      (fun u => (pm.text, u.display_name, decide (pm.sender_id = user_id))))

/-- Epoch fallback of the initial cursor: the literal `'2020-01-01'`
(src/main.py:297), a timestamp earlier than every message of a real store. -/
def epoch : Int := 0

/-- Initial cursor of refresh_msgs (src/main.py:296-297):
`SELECT MAX(created_at) FROM messages`, with the epoch fallback when the
table is empty (`or '2020-01-01'`). -/
def init_cursor (msgs : List PubMsg) : Int :=
  match msgs.map (fun m => m.created_at) with
  | [] => epoch
  | t :: ts => ts.foldl max t

/-- Poll query of refresh_msgs (src/main.py:304-308):
`SELECT username, text, created_at FROM messages WHERE created_at > %s
ORDER BY created_at ASC`.  The strict `>` against the cursor is the filter;
the `ORDER BY` is realised by the store-order invariant (see the file
header). -/
def poll_query (msgs : List PubMsg) (cursor : Int) : List PubMsg :=
  msgs.filter (fun m => decide (cursor < m.created_at))

/-- Per-batch loop of refresh_msgs (src/main.py:312-316), processed row by
row: a row from another user is emitted and `last_time` is set to its
`created_at`; a row the session itself authored is neither emitted nor allowed
to advance `last_time` (line 316 sits inside the `!=` branch).  Returns the
emitted rows in processing order together with the final cursor. -/
def process_batch (my_name : String) : List PubMsg → Int → List PubMsg × Int
  | [], cursor => ([], cursor)
  | m :: ms, cursor =>
    if m.username ≠ my_name then
      let r := process_batch my_name ms m.created_at
      (m :: r.1, r.2)
    else process_batch my_name ms cursor

/-- One iteration of the refresh_msgs poll loop (src/main.py:300-316): query
the rows past the cursor, then run the per-batch loop. -/
def poll_step (my_name : String) (msgs : List PubMsg) (cursor : Int) :
    List PubMsg × Int :=
  process_batch my_name (poll_query msgs cursor) cursor

/-! Concrete identities, rows and stores used by the witnesses and
counterexamples below. -/

def alice : String := "alice"

def bob : String := "bob"

def carol : String := "carol"

def bodyHi : String := "hi"

def bodyHey : String := "hey"

def bodyYo : String := "yo"

def emptyStr : String := ""

def emailA : String := "a@x"

def emailB : String := "b@x"

def pw : String := "pw"

def nameAnna : String := "Anna"

def nameBoris : String := "Boris"

def msgBob1 : PubMsg := ⟨1, bob, bodyHi, 1⟩

def msgBob5 : PubMsg := ⟨1, bob, bodyHi, 5⟩

def msgCarol5 : PubMsg := ⟨2, carol, bodyYo, 5⟩

def msgCarol7 : PubMsg := ⟨2, carol, bodyYo, 7⟩

def msgAlice5 : PubMsg := ⟨2, alice, bodyHey, 5⟩

def userAnna : User := ⟨1, emailA, pw, nameAnna⟩

def userBoris : User := ⟨2, emailB, pw, nameBoris⟩

/-- Private message sent by user 1 to user 2 at time 0. -/
def pmOld : PrivMsg := ⟨1, 1, 2, bodyHi, 0⟩

/-- Store holding two users and one private message between them. -/
def dbPriv : DB :=
  { DB.empty with users := [userAnna, userBoris], private_messages := [pmOld] }

/-- Store with a friends row only in the direction `(2, 1)`. -/
def dbRev : DB :=
  { DB.empty with users := [userAnna, userBoris], friends := [(2, 1)] }

/-- Store with a friends row only in the direction `(1, 2)`. -/
def dbFwd : DB :=
  { DB.empty with users := [userAnna, userBoris], friends := [(1, 2)] }

/-- Store with two users and no relationship rows. -/
def dbTwoUsers : DB := { DB.empty with users := [userAnna, userBoris] }

/-- Store whose public log holds 101 messages at times 0..100, all inside the
24-hour window of `now = 0`. -/
def db101 : DB :=
  { DB.empty with
      messages := (List.range 101).map (fun i => ⟨i, bob, bodyHi, (i : Int)⟩) }

/-- The newest row of `db101`. -/
def msgNewest : PubMsg := ⟨100, bob, bodyHi, 100⟩

/-- Store with two public messages, both inside the window of `now = 10`. -/
def dbSmall : DB := { DB.empty with messages := [msgBob5, msgCarol7] }

/-! Helper lemmas about the per-batch loop of refresh_msgs. -/

/-- The emitted rows of a batch are a sublist of the batch: emission preserves
the order in which the query returned the rows. -/
theorem process_batch_fst_sublist (me : String) (l : List PubMsg) (c : Int) :
    List.Sublist (process_batch me l c).1 l := by
  induction l generalizing c with
  | nil => simp [process_batch]
  | cons m ms ih =>
    by_cases h : m.username = me
    · simpa [process_batch, h] using (ih c).cons m
    · simpa [process_batch, h] using (ih m.created_at).cons₂ m

/-- No emitted row is authored by the session itself. -/
theorem process_batch_fst_not_me (me : String) (l : List PubMsg) (c : Int) :
    ∀ x ∈ (process_batch me l c).1, x.username ≠ me := by
  induction l generalizing c with
  | nil => simp [process_batch]
  | cons m ms ih =>
    by_cases h : m.username = me
    · simpa [process_batch, h] using ih c
    · intro x hx
      rw [show process_batch me (m :: ms) c
            = (m :: (process_batch me ms m.created_at).1,
               (process_batch me ms m.created_at).2) by simp [process_batch, h]] at hx
      rcases List.mem_cons.mp hx with rfl | hx
      · exact h
      · exact ih m.created_at x hx

/-- Every batch row from another user is emitted. -/
theorem process_batch_fst_mem (me : String) (l : List PubMsg) (c : Int)
    (x : PubMsg) (hx : x ∈ l) (hne : x.username ≠ me) :
    x ∈ (process_batch me l c).1 := by
  induction l generalizing c with
  | nil => cases hx
  | cons m ms ih =>
    by_cases h : m.username = me
    · rcases List.mem_cons.mp hx with rfl | hx
      · exact absurd h hne
      · simpa [process_batch, h] using ih c hx
    · rcases List.mem_cons.mp hx with rfl | hx
      · simp [process_batch, h]
      · simp only [process_batch, h, ne_eq, not_false_iff, if_pos]
        exact List.mem_cons_of_mem m (ih m.created_at hx)

/-- The final cursor of a batch is the incoming cursor or the `created_at` of
some batch row from another user: own rows never move the cursor. -/
theorem process_batch_snd_cases (me : String) (l : List PubMsg) (c : Int) :
    (process_batch me l c).2 = c ∨
      ∃ x, x ∈ l ∧ x.username ≠ me ∧ (process_batch me l c).2 = x.created_at := by
  induction l generalizing c with
  | nil => left; simp [process_batch]
  | cons m ms ih =>
    by_cases h : m.username = me
    · rcases ih c with hc | ⟨x, hx, hxne, hxeq⟩
      · left; simpa [process_batch, h] using hc
      · right
        exact ⟨x, List.mem_cons_of_mem m hx, hxne, by simpa [process_batch, h] using hxeq⟩
    · rcases ih m.created_at with hc | ⟨x, hx, hxne, hxeq⟩
      · right
        exact ⟨m, List.mem_cons_self m ms, h, by simpa [process_batch, h] using hc⟩
      · right
        exact ⟨x, List.mem_cons_of_mem m hx, hxne, by simpa [process_batch, h] using hxeq⟩

/-- On a batch that is non-decreasing in `created_at` (the order the query
delivers), every emitted row's timestamp is at most the final cursor. -/
theorem process_batch_le_snd (me : String) (l : List PubMsg) (c : Int)
    (hsort : l.Pairwise (fun a b => a.created_at ≤ b.created_at)) :
    ∀ x ∈ (process_batch me l c).1, x.created_at ≤ (process_batch me l c).2 := by
  induction l generalizing c with
  | nil => simp [process_batch]
  | cons m ms ih =>
    rw [List.pairwise_cons] at hsort
    by_cases h : m.username = me
    · simpa [process_batch, h] using ih c hsort.2
    · intro x hx
      rw [show process_batch me (m :: ms) c
            = (m :: (process_batch me ms m.created_at).1,
               (process_batch me ms m.created_at).2) by simp [process_batch, h]] at hx ⊢
      rcases List.mem_cons.mp hx with rfl | hx
      · rcases process_batch_snd_cases me ms x.created_at with hc | ⟨y, hy, _, hyeq⟩
        · simp [hc]
        · simpa [hyeq] using hsort.1 y hy
      · exact ih m.created_at hsort.2 x hx

/-- Every row of the poll query is strictly past the cursor. -/
theorem poll_query_lt (msgs : List PubMsg) (c : Int) :
    ∀ x ∈ poll_query msgs c, c < x.created_at := by
  intro x hx
  have := (List.mem_filter.mp hx).2
  simpa using this

/-- Membership in the poll query. -/
theorem mem_poll_query (msgs : List PubMsg) (c : Int) (x : PubMsg)
    (hx : x ∈ msgs) (hc : c < x.created_at) : x ∈ poll_query msgs c :=
  List.mem_filter.mpr ⟨hx, by simpa using hc⟩

/-- The poll cursor never rewinds. -/
theorem poll_step_cursor_mono (me : String) (msgs : List PubMsg) (c : Int) :
    c ≤ (poll_step me msgs c).2 := by
  rcases process_batch_snd_cases me (poll_query msgs c) c with hc | ⟨x, hx, _, hxeq⟩
  · exact le_of_eq hc.symm
  · exact le_of_lt (by simpa [poll_step, hxeq] using poll_query_lt msgs c x hx)

/-! Claim theorems. -/

/-- C10: the public clear operation removes every row of the public message
log and leaves the private-message, user and friend tables unchanged; the
confirmed clear flow also leaves those tables unchanged, the public log
afterwards holding exactly the freshly posted sentinel announcement. -/
theorem C10_clear_frame (db : DB) (now : Int) :
    (clear_chat db).messages = []
    ∧ (clear_chat db).private_messages = db.private_messages
    ∧ (clear_chat db).users = db.users
    ∧ (clear_chat db).friends = db.friends
    ∧ (confirm_and_clear db now).private_messages = db.private_messages
    ∧ (confirm_and_clear db now).users = db.users
    ∧ (confirm_and_clear db now).friends = db.friends
    ∧ (confirm_and_clear db now).messages
        = [⟨db.msg_seq, sentinel, clear_notice, now⟩] :=
  ⟨rfl, rfl, rfl, rfl, rfl, rfl, rfl, rfl⟩

/-- C5: the send path rejects an empty body with a validation error and
stores nothing; a non-empty body is persisted as a fresh row, and that row is
returned by every later poll query whose cursor precedes its `created_at`. -/
theorem C5_send_validation (db : DB) (u msg : String) (now c : Int)
    (hne : msg ≠ "") (hc : c < now) :
    on_send db u emptyStr now = none
    ∧ on_send db u msg now = some (save_message db u msg now)
    ∧ (save_message db u msg now).messages
        = db.messages ++ [⟨db.msg_seq, u, msg, now⟩]
    ∧ (⟨db.msg_seq, u, msg, now⟩ : PubMsg)
        ∈ poll_query (save_message db u msg now).messages c := by
  refine ⟨rfl, by simp [on_send, hne], rfl, ?_⟩
  exact mem_poll_query _ _ _ (by simp [save_message]) hc

/-- Witness for C5 at a concrete store. -/
theorem C5_send_validation_witness :
    bodyHi ≠ "" ∧ (0 : Int) < 5
    ∧ (on_send DB.empty alice emptyStr 5 = none
       ∧ on_send DB.empty alice bodyHi 5 = some (save_message DB.empty alice bodyHi 5)
       ∧ (save_message DB.empty alice bodyHi 5).messages
           = DB.empty.messages ++ [⟨DB.empty.msg_seq, alice, bodyHi, 5⟩]
       ∧ (⟨DB.empty.msg_seq, alice, bodyHi, 5⟩ : PubMsg)
           ∈ poll_query (save_message DB.empty alice bodyHi 5).messages 0) :=
  ⟨by decide, by decide,
   C5_send_validation DB.empty alice bodyHi 5 0 (by decide) (by decide)⟩

/-- C9: a self-request is rejected; a duplicate request for a pair that
already has a row is a no-op that returns the non-success result and leaves
the state unchanged, so requesting `(a, b)` twice leaves exactly one row for
the pair. -/
theorem C9_duplicate_request (db : DB) (a b : Nat)
    (hab : a ≠ b) (hrow : (a, b) ∉ db.friends)
    (ha : db.users.any (fun u => decide (u.id = a)) = true)
    (hb : db.users.any (fun u => decide (u.id = b)) = true) :
    (∀ db2 c, add_friend db2 c c = (false, db2))
    ∧ add_friend db a b
        = (true, { db with friends := db.friends ++ [(a, b)] })
    ∧ add_friend { db with friends := db.friends ++ [(a, b)] } a b
        = (false, { db with friends := db.friends ++ [(a, b)] })
    ∧ (db.friends ++ [(a, b)]).count (a, b) = 1 := by
  refine ⟨?_, ?_, ?_, ?_⟩
  · intro db2 c
    simp [add_friend]
  · simp [add_friend, hab, hrow, ha, hb]
  · simp [add_friend, hab]
  · rw [List.count_append, List.count_eq_zero.mpr hrow]
    simp

/-- Witness for C9 at a concrete store. -/
theorem C9_duplicate_request_witness :
    (1 : Nat) ≠ 2 ∧ ((1, 2) ∉ dbTwoUsers.friends)
    ∧ dbTwoUsers.users.any (fun u => decide (u.id = 1)) = true
    ∧ dbTwoUsers.users.any (fun u => decide (u.id = 2)) = true
    ∧ ((∀ db2 c, add_friend db2 c c = (false, db2))
       ∧ add_friend dbTwoUsers 1 2
           = (true, { dbTwoUsers with friends := dbTwoUsers.friends ++ [(1, 2)] })
       ∧ add_friend { dbTwoUsers with friends := dbTwoUsers.friends ++ [(1, 2)] } 1 2
           = (false, { dbTwoUsers with friends := dbTwoUsers.friends ++ [(1, 2)] })
       ∧ (dbTwoUsers.friends ++ [(1, 2)]).count (1, 2) = 1) :=
  ⟨by decide, by decide, by decide, by decide,
   C9_duplicate_request dbTwoUsers 1 2 (by decide) (by decide) (by decide) (by decide)⟩

/-- C3: a stored private message inside the retention window is visible to a
viewer — returned by the private-history query against some chat partner —
iff the viewer is its sender or its receiver.  Public rows carry no recipient
and both public queries (initial history and poll) apply no viewer filter at
all, so the same rule governs both fetch paths. -/
theorem C3_private_visibility (db : DB) (v : Nat) (m : PrivMsg) (now : Int)
    (hm : m ∈ db.private_messages)
    (hwin : in_window now m.created_at = true) :
    (∃ f, m ∈ load_private_messages_rows db v f now)
      ↔ (v = m.sender_id ∨ v = m.receiver_id) := by
  constructor
  · rintro ⟨f, hf⟩
    have hcond := (List.mem_filter.mp hf).2
    simp only [Bool.or_eq_true, Bool.and_eq_true, decide_eq_true_eq] at hcond
    rcases hcond with ⟨hs, -⟩ | ⟨⟨-, hr⟩, -⟩
    · exact Or.inl hs.symm
    · exact Or.inr hr.symm
  · rintro (h | h)
    · exact ⟨m.receiver_id, List.mem_filter.mpr ⟨hm, by simp [h]⟩⟩
    · exact ⟨m.sender_id, List.mem_filter.mpr ⟨hm, by simp [h, hwin]⟩⟩

/-- Witness for C3: the receiver of the stored private message sees it. -/
theorem C3_private_visibility_witness :
    pmOld ∈ dbPriv.private_messages
    ∧ in_window 10 pmOld.created_at = true
    ∧ ((∃ f, pmOld ∈ load_private_messages_rows dbPriv 2 f 10)
        ↔ (2 = pmOld.sender_id ∨ 2 = pmOld.receiver_id)) :=
  ⟨by decide, by decide,
   C3_private_visibility dbPriv 2 pmOld 10 (by decide) (by decide)⟩

/-- C4 fails on the code: joining with the reserved sentinel identity
succeeds — nothing rejects it — and two accounts sharing one display name
both register successfully (only the email is policed), after which a second
session joining under the already-active name is silently absorbed by the
set instead of receiving a NameTaken rejection. -/
theorem C4_counterexample :
    sentinel ∈ join_chat [] sentinel
    ∧ (register_user DB.empty emailA pw nameAnna).1 = true
    ∧ (register_user (register_user DB.empty emailA pw nameAnna).2
        emailB pw nameAnna).1 = true
    ∧ join_chat (join_chat [] nameAnna) nameAnna = join_chat [] nameAnna := by
  decide

/-- C4 amended: the join step never rejects — any name, the sentinel
included, ends up active — and registration success depends only on the
email, never on the display name, so neither uniqueness nor
sentinel-avoidance holds for active display names. -/
theorem C4_amended (online : List String) (n : String) (db : DB)
    (e p d d2 : String) :
    n ∈ join_chat online n
    ∧ (register_user db e p d).1 = (register_user db e p d2).1 := by
  constructor
  · by_cases h : n ∈ online
    · simp [join_chat, h]
    · simp [join_chat, h]
  · by_cases h : db.users.any (fun u => decide (u.email = e))
    · simp [register_user, h]
    · simp [register_user, h]

/-- C6 fails on the code: with 101 rows inside the window,
`ORDER BY created_at ASC LIMIT 100` keeps the hundred oldest rows, so the
newest in-window row is absent from the initial history. -/
theorem C6_counterexample :
    msgNewest ∈ db101.messages
    ∧ in_window 0 msgNewest.created_at = true
    ∧ (load_messages_rows db101 0).length = 100
    ∧ msgNewest ∉ load_messages_rows db101 0 := by decide

/-- C6 amended: the initial history returns only rows inside the retention
window, at most 100 of them, in store order, and returns exactly the
in-window rows whenever at most 100 are in the window; on overflow the
`LIMIT` applied after the ascending sort keeps the hundred oldest in-window
rows, not the newest. -/
theorem C6_amended (db : DB) (now : Int) :
    (∀ m ∈ load_messages_rows db now, in_window now m.created_at = true)
    ∧ (load_messages_rows db now).length ≤ 100
    ∧ List.Sublist (load_messages_rows db now) db.messages
    ∧ ((db.messages.filter (fun m => in_window now m.created_at)).length ≤ 100 →
        load_messages_rows db now
          = db.messages.filter (fun m => in_window now m.created_at)) := by
  refine ⟨?_, ?_, ?_, ?_⟩
  · intro m hm
    exact (List.mem_filter.mp (List.mem_of_mem_take hm)).2
  · exact List.length_take_le 100 _
  · exact (List.take_sublist 100 _).trans (List.filter_sublist _)
  · intro h
    exact List.take_of_length_le h

/-- Witness for C6 amended at a store with two in-window rows, discharging
the under-cap implication. -/
theorem C6_amended_witness :
    (dbSmall.messages.filter (fun m => in_window 10 m.created_at)).length ≤ 100
    ∧ load_messages_rows dbSmall 10
        = dbSmall.messages.filter (fun m => in_window 10 m.created_at) :=
  ⟨by decide, (C6_amended dbSmall 10).2.2.2 (by decide)⟩

/-- C7 names the intended behaviour and the code breaks it: in the WHERE
clause of the private history (src/main.py:190-193) SQL operator precedence
attaches the 24-hour condition only to the received-direction disjunct, so a
private message older than the retention window is still returned to its
sender — here the sender (viewer 1) still receives the expired `pmOld`
through the full query including the join projection, while the receiver
(viewer 2) correctly does not — contradicting the program's own banner that
messages are kept for 24 hours (src/main.py:219). -/
theorem C7_code_bug :
    in_window 100 pmOld.created_at = false
    ∧ pmOld ∈ load_private_messages_rows dbPriv 1 2 100
    ∧ pmOld ∉ load_private_messages_rows dbPriv 2 1 100
    ∧ (pmOld.text, nameAnna, true) ∈ load_private_messages dbPriv 1 2 100 := by
  decide

/-- Lookup of a user by id succeeds and returns that user when the id column
is duplicate-free. -/
theorem find_user_by_id (users : List User) (u : User) (hu : u ∈ users)
    (huniq : (users.map (fun w => w.id)).Nodup) :
    users.find? (fun w => decide (w.id = u.id)) = some u := by
  induction users with
  | nil => cases hu
  | cons w ws ih =>
    rw [List.map_cons, List.nodup_cons] at huniq
    rcases List.mem_cons.mp hu with rfl | hu2
    · rw [List.find?_cons_of_pos _ (by simp)]
    · have hw : (w.id = u.id) = False := by
        simp only [eq_iff_iff, iff_false]
        intro he
        exact huniq.1 (he ▸ List.mem_map_of_mem (fun x => x.id) hu2)
      rw [List.find?_cons_of_neg _ (by simp [hw])]
      exact ih hu2 huniq.2

/-- C8 fails on the code: a friends row in the reverse direction does not
surface — the friends-of query for user 1 is empty although the row `(2, 1)`
exists. -/
theorem C8_counterexample :
    (2, 1) ∈ dbRev.friends ∧ get_friends dbRev 1 = [] := by decide

/-- C8 amended: the friends-of query reports exactly the outgoing rows — a
user `u` is listed for `a` iff the directional row `(a, u.id)` exists (there
is no status column: every stored row acts as accepted); a reverse row alone
is never reported. -/
theorem C8_amended (db : DB) (a : Nat) (u : User)
    (hu : u ∈ db.users)
    (huniq : (db.users.map (fun w => w.id)).Nodup) :
    (u.display_name, u.id) ∈ get_friends db a ↔ (a, u.id) ∈ db.friends := by
  constructor
  · intro h
    obtain ⟨fr, hfr, heq⟩ := List.mem_filterMap.mp h
    obtain ⟨w, hw, hwe⟩ := Option.map_eq_some'.mp heq
    have hfr1 : fr.1 = a := by
      have := (List.mem_filter.mp hfr).2
      simpa using this
    have hwid : w.id = fr.2 := by
      have := List.find?_some hw
      simpa using this
    have hpair : w.display_name = u.display_name ∧ w.id = u.id := by
      constructor
      · exact congrArg Prod.fst hwe
      · exact congrArg Prod.snd hwe
    have : fr = (a, u.id) := by
      cases fr
      simp only [Prod.mk.injEq]
      exact ⟨hfr1, hwid.symm.trans hpair.2⟩
    rw [← this]
    exact (List.mem_filter.mp hfr).1
  · intro h
    apply List.mem_filterMap.mpr
    refine ⟨(a, u.id), List.mem_filter.mpr ⟨h, by simp⟩, ?_⟩
    rw [show ((a, u.id).2 : Nat) = u.id from rfl, find_user_by_id db.users u hu huniq]
    rfl

/-- Witness for C8 amended: with the forward row `(1, 2)` present, user 2 is
reported as a friend of user 1. -/
theorem C8_amended_witness :
    userBoris ∈ dbFwd.users
    ∧ (dbFwd.users.map (fun w => w.id)).Nodup
    ∧ (((nameBoris, 2) ∈ get_friends dbFwd 1) ↔ ((1, 2) ∈ dbFwd.friends)) :=
  ⟨by decide, by decide, C8_amended dbFwd 1 userBoris (by decide) (by decide)⟩

/-- C1 fails on the code: `created_at` values can tie (the table has no
uniqueness on the timestamp and the cursor carries no id tie-break), and the
strict `>` cursor then skips such a message for good.  Poll one delivers the
only message (time 5) and moves the cursor to 5; another user's message then
lands with the same timestamp 5; the next poll returns nothing and leaves the
cursor at 5 — and since the cursor never rewinds, the tied message is never
delivered to this session. -/
theorem C1_counterexample :
    poll_step alice [msgBob5] 0 = ([msgBob5], 5)
    ∧ msgCarol5.username ≠ alice
    ∧ msgCarol5 ∈ [msgBob5, msgCarol5]
    ∧ poll_step alice [msgBob5, msgCarol5] 5 = ([], 5) := by decide

/-- C1 amended: within one batch delivery order equals store order — the
emitted rows are a sublist of the query result, itself ascending in
`created_at` for a store kept in timestamp order; across polls the cursor
never rewinds and no emitted message is ever emitted again at any later
cursor over any later store; and a message of another author inserted with a
timestamp strictly above both the polled store and the cursor is delivered on
the very next poll.  The unconditional no-skip of the original claim needs
that strictness: at a timestamp tie the message is skipped (see the
counterexample). -/
theorem C1_amended (me : String) (msgs msgs2 : List PubMsg) (c : Int)
    (m : PubMsg)
    (hsort : msgs.Pairwise (fun a b => a.created_at ≤ b.created_at))
    (hm2 : m ∈ msgs2) (hother : m.username ≠ me)
    (hc : c < m.created_at)
    (hnew : ∀ x ∈ msgs, x.created_at < m.created_at) :
    List.Sublist (poll_step me msgs c).1 (poll_query msgs c)
    ∧ (poll_query msgs c).Pairwise (fun a b => a.created_at ≤ b.created_at)
    ∧ c ≤ (poll_step me msgs c).2
    ∧ (∀ x ∈ (poll_step me msgs c).1, ∀ c2 : Int,
        (poll_step me msgs c).2 ≤ c2 → x ∉ (poll_step me msgs2 c2).1)
    ∧ m ∈ (poll_step me msgs2 (poll_step me msgs c).2).1 := by
  have hbatch : (poll_query msgs c).Pairwise
      (fun a b => a.created_at ≤ b.created_at) :=
    hsort.sublist (List.filter_sublist _)
  refine ⟨process_batch_fst_sublist me (poll_query msgs c) c, hbatch,
    poll_step_cursor_mono me msgs c, ?_, ?_⟩
  · intro x hx c2 hc2 hx2
    have hxle : x.created_at ≤ (poll_step me msgs c).2 :=
      process_batch_le_snd me (poll_query msgs c) c hbatch x hx
    have hxgt : c2 < x.created_at :=
      poll_query_lt msgs2 c2 x
        ((process_batch_fst_sublist me (poll_query msgs2 c2) c2).subset hx2)
    exact absurd hxgt (not_lt.mpr (hxle.trans hc2))
  · have hlt : (poll_step me msgs c).2 < m.created_at := by
      rcases process_batch_snd_cases me (poll_query msgs c) c with h0 | ⟨x, hx, -, hxeq⟩
      · rw [show (poll_step me msgs c).2 = c from h0]
        exact hc
      · rw [show (poll_step me msgs c).2 = x.created_at from hxeq]
        exact hnew x ((List.filter_sublist _).subset hx)
    exact process_batch_fst_mem me (poll_query msgs2 (poll_step me msgs c).2)
      (poll_step me msgs c).2 m
      (mem_poll_query msgs2 (poll_step me msgs c).2 m hm2 hlt) hother

/-- Witness for C1 amended: bob's message at time 5 is polled from cursor 0,
then carol's strictly newer message at time 7 arrives and is delivered on the
next poll. -/
theorem C1_amended_witness :
    ([msgBob5].Pairwise (fun a b => a.created_at ≤ b.created_at))
    ∧ msgCarol7 ∈ [msgBob5, msgCarol7]
    ∧ msgCarol7.username ≠ alice
    ∧ ((0 : Int) < msgCarol7.created_at)
    ∧ (∀ x ∈ [msgBob5], x.created_at < msgCarol7.created_at)
    ∧ (List.Sublist (poll_step alice [msgBob5] 0).1 (poll_query [msgBob5] 0)
       ∧ (poll_query [msgBob5] 0).Pairwise
           (fun a b => a.created_at ≤ b.created_at)
       ∧ (0 : Int) ≤ (poll_step alice [msgBob5] 0).2
       ∧ (∀ x ∈ (poll_step alice [msgBob5] 0).1, ∀ c2 : Int,
           (poll_step alice [msgBob5] 0).2 ≤ c2 →
             x ∉ (poll_step alice [msgBob5, msgCarol7] c2).1)
       ∧ msgCarol7 ∈
           (poll_step alice [msgBob5, msgCarol7] (poll_step alice [msgBob5] 0).2).1) :=
  ⟨by decide, by decide, by decide, by decide, by decide,
   C1_amended alice [msgBob5] [msgBob5, msgCarol7] 0 msgCarol7
     (by decide) (by decide) (by decide) (by decide) (by decide)⟩

/-- C2 fails on the code: `last_time` is updated only inside the
other-sender branch (src/main.py:313-316), so after a batch whose last
message is the session's own, the cursor stays at the last other-sender
timestamp (here 1, not 5) and the own message is fetched again by the next
poll — though still never re-emitted. -/
theorem C2_counterexample :
    (poll_step alice [msgBob1, msgAlice5] 0).2 = 1
    ∧ msgAlice5 ∈ poll_query [msgBob1, msgAlice5] 1
    ∧ msgAlice5 ∉ (poll_step alice [msgBob1, msgAlice5] 1).1 := by decide

/-- C2 amended: a session's own message is never re-emitted by its poll, but
the cursor advances only to timestamps of other-sender batch rows — never
because of a self-authored row — so a self-authored message past the
resulting cursor is re-fetched by the following poll query while still not
being re-emitted. -/
theorem C2_amended (me : String) (msgs : List PubMsg) (c : Int) (m : PubMsg)
    (hm : m ∈ msgs) (hmine : m.username = me) (hc : c < m.created_at) :
    (∀ x ∈ (poll_step me msgs c).1, x.username ≠ me)
    ∧ ((poll_step me msgs c).2 = c
        ∨ ∃ x, x ∈ poll_query msgs c ∧ x.username ≠ me
            ∧ (poll_step me msgs c).2 = x.created_at)
    ∧ m ∈ poll_query msgs c
    ∧ m ∉ (poll_step me msgs c).1 := by
  refine ⟨process_batch_fst_not_me me (poll_query msgs c) c,
    process_batch_snd_cases me (poll_query msgs c) c,
    mem_poll_query msgs c m hm hc, ?_⟩
  intro hmem
  exact process_batch_fst_not_me me (poll_query msgs c) c m hmem hmine

/-- Witness for C2 amended: polling from cursor 1, alice's own message at
time 5 is fetched again but not emitted, and the cursor does not move past
it. -/
theorem C2_amended_witness :
    msgAlice5 ∈ [msgBob1, msgAlice5]
    ∧ msgAlice5.username = alice
    ∧ ((1 : Int) < msgAlice5.created_at)
    ∧ ((∀ x ∈ (poll_step alice [msgBob1, msgAlice5] 1).1, x.username ≠ alice)
       ∧ ((poll_step alice [msgBob1, msgAlice5] 1).2 = 1
           ∨ ∃ x, x ∈ poll_query [msgBob1, msgAlice5] 1 ∧ x.username ≠ alice
               ∧ (poll_step alice [msgBob1, msgAlice5] 1).2 = x.created_at)
       ∧ msgAlice5 ∈ poll_query [msgBob1, msgAlice5] 1
       ∧ msgAlice5 ∉ (poll_step alice [msgBob1, msgAlice5] 1).1) :=
  ⟨by decide, by decide, by decide,
   C2_amended alice [msgBob1, msgAlice5] 1 msgAlice5
     (by decide) (by decide) (by decide)⟩
